import Mathlib

/-!
Verification of the simpleMQTT module (src/07-MultipleComputers/simpleMQTT.py).

Strings are modelled as `List Char`.  Python's `str.split(sep)`, `int(...)`,
`str(...)` of integers, and `range(a, b)` are modelled by `splitSep`, `pyInt`,
`intRepr` and `pyRange` below.  Console output, publishes, handler invocations
and connection attempts are modelled as explicit event lists of type `Ev`.
-/

set_option autoImplicit false

abbrev Str := List Char

/-- Model of Python `str.split(sep)` for a one-character separator:
empty segments are kept and `"".split(sep) == [""]`. -/
def splitSep (sep : Char) : Str → List Str
  | [] => [[]]
  | c :: rest =>
    if c = sep then [] :: splitSep sep rest
    else
      match splitSep sep rest with
      | [] => [[c]]
      | s :: ss => (c :: s) :: ss

/-- Model of Python's `lst[-1]` applied to the result of `split`:
the last segment (the result of `splitSep` is never empty). -/
def lastSplit (sep : Char) (l : Str) : Str :=
  (splitSep sep l).getLastD []

/-- The six ASCII whitespace characters stripped by Python's `int`. -/
def isPySpace (c : Char) : Bool :=
  c = ' ' || c = '\t' || c = '\n' || c = '\x0d' || c = '\x0b' || c = '\x0c'

/-- Strip leading and trailing whitespace, as Python `int` does
before parsing a string. -/
def pyStrip (l : Str) : Str :=
  ((l.dropWhile isPySpace).reverse.dropWhile isPySpace).reverse

/-- After the leading digit of a Python integer literal: digits, with single
underscores allowed only between digits. -/
def usTail : Str → Bool
  | [] => true
  | c :: rest =>
    if c = '_' then
      match rest with
      | [] => false
      | d :: rest2 => d.isDigit && usTail rest2
    else c.isDigit && usTail rest

/-- A valid unsigned Python integer-literal body: nonempty, starting with a
digit, digits with single underscores between digits. -/
def pyDigitsValid : Str → Bool
  | [] => false
  | c :: rest => c.isDigit && usTail rest

/-- Numeric value of a list of decimal digit characters. -/
def digitsToNat (l : Str) : Nat :=
  l.foldl (fun acc c => 10 * acc + (c.toNat - 48)) 0

/-- Parse an unsigned Python integer-literal body (sign and whitespace
already removed). -/
def pyIntCore (l : Str) : Option Nat :=
  if pyDigitsValid l then some (digitsToNat (l.filter (fun c => c ≠ '_'))) else none

/-- Model of Python `int(s)` on a decimal string: strip whitespace, optional
sign, then a digit sequence with optional single underscores.  Returns `none`
where Python raises `ValueError`.  (Non-ASCII digits are not modelled.) -/
def pyInt (l : Str) : Option Int :=
  match pyStrip l with
  | [] => none
  | c :: rest =>
    if c = '+' then (pyIntCore rest).map Int.ofNat
    else if c = '-' then (pyIntCore rest).map (fun n => -(Int.ofNat n))
    else (pyIntCore (c :: rest)).map Int.ofNat

/-- The decimal digit character for `d < 10`. -/
def digitCh (d : Nat) : Char := Char.ofNat (48 + d)

/-- Fuel-driven most-significant-first decimal digits of a natural number. -/
def natReprAux : Nat → Nat → Str
  | 0, _ => []
  | fuel + 1, n =>
    if n < 10 then [digitCh n]
    else natReprAux fuel (n / 10) ++ [digitCh (n % 10)]

/-- Decimal representation of a natural number, as Python `str` renders it. -/
def natRepr (n : Nat) : Str := natReprAux (n + 1) n

/-- Model of Python `str(i)` for an `int`: minus sign for negatives,
decimal digits, no leading zeros. -/
def intRepr (n : Int) : Str :=
  if n < 0 then '-' :: natRepr n.natAbs else natRepr n.toNat

/-- Join a list of strings with a separator string. -/
def joinSep (sep : Str) : List Str → Str
  | [] => []
  | [s] => s
  | s :: rest => s ++ sep ++ joinSep sep rest

/-- Model of Python `repr` of a string in the common case (single quotes,
no escaping of embedded quotes modelled). -/
def pyReprStr (s : Str) : Str :=
  Char.ofNat 39 :: s ++ [Char.ofNat 39]

/-- Model of Python `str` of a list of strings, as printed by `print`. -/
def pyReprStrList (l : List Str) : Str :=
  '[' :: joinSep (", ".data) (l.map pyReprStr) ++ [']']

/-- Model of Python `range(a, b)` over integers, as a list. -/
def pyRange (a b : Int) : List Int :=
  (List.range (b - a).toNat).map (fun j => a + Int.ofNat j)

/-! ### Core data model, from simpleMQTT.py -/

/-- Console colors used by `print_colored` that matter here. -/
inductive Color
  | black
  | red
  | blue
deriving DecidableEq, Repr

/-- A Python value passed as a message: the module only distinguishes
strings from non-strings (`isinstance(message, str)`); non-strings are
represented by an integer payload. -/
inductive PyVal
  | str (s : Str)
  | int (n : Int)
deriving DecidableEq, Repr

/-- Model of Python `str(v)` as applied by `print`. -/
def pyStrOf : PyVal → Str
  | .str s => s
  | .int n => intRepr n

/-- Whether `isinstance(v, str)` holds. -/
def PyVal.isStr : PyVal → Bool
  | .str _ => true
  | .int _ => false

/-- Python exceptions raised by the modelled code paths. -/
inductive PyError
  | attributeError
  | assertionError
  | valueError
  | typeError
  | systemExit
deriving DecidableEq, Repr

/-- Observable effects of the modelled code: console lines, MQTT publishes,
subscribe requests, connection attempts, handler invocations, and
`traceback.print_exc()` output. -/
inductive Ev
  | line (color : Color) (text : Str)
  | publish (topic : Str) (payload : PyVal)
  | subscribeReq (topics : List (Str × Int))
  | connectAttempt
  | handlerRun (message : Str) (sender_id : Int)
  | traceback
deriving DecidableEq, Repr

/-- The plain-data fields of a `Sender` (who_am_i, number_of_computers,
verbosity), separated out because `TalkerToBroker` stores them. -/
structure SenderData where
  who_am_i : Int
  number_of_computers : Int
  verbosity : Int
deriving Repr

/-- Shape and behavior of a controller's `act_on_message_received`
attribute: whether it is callable, how many parameters its signature has,
and what exception (if any) it raises when invoked on a given message. -/
structure ControllerMethod where
  is_callable : Bool
  param_count : Nat
  run : Str → Int → Option PyError

/-- A controller object as the `Receiver` sees it: it may or may not have
an `act_on_message_received` attribute. -/
structure Controller where
  act_on_message_received : Option ControllerMethod

/-- The `Receiver` class: a controller object and a verbosity level
(the `_talker_to_broker` back-reference is supplied explicitly where the
code would read it, since it always denotes the dispatching talker). -/
structure Receiver where
  controller : Controller
  verbosity : Int

/-- The `Broker` class: hostname and two ports. -/
structure Broker where
  hostname : Str
  tcp_port : Int
  web_socket_port : Int
deriving Repr

/-- The default Broker constructed when `activate` is given none. -/
def defaultBroker : Broker := ⟨"broker.hivemq.com".data, 1883, 8000⟩

/-- The `Broker.__repr__` string. -/
def brokerRepr (b : Broker) : Str :=
  "Hostname ".data ++ b.hostname ++ " at ports ".data ++ intRepr b.tcp_port
    ++ " and ".data ++ intRepr b.web_socket_port

/-- The topic prefix `unique_id + "/computer"` computed in
`TalkerToBroker.__init__`. -/
def topicStem (unique_id : Str) : Str := unique_id ++ "/computer".data

/-- The publisher topic `"{}-{}".format(prefix, who_am_i)` of
`TalkerToBroker.__init__` (the spec's `publishTopic`). -/
def publishTopic (unique_id : Str) (who : Int) : Str :=
  topicStem unique_id ++ '-' :: intRepr who

/-- The subscriber-topic list of `TalkerToBroker.__init__`: the loop
`for k in range(1, number_of_computers + 1): if k != who_am_i: append`
(the spec's `subscribeTopics`). -/
def subscribeTopics (unique_id : Str) (who number_of_computers : Int) : List Str :=
  ((pyRange 1 (number_of_computers + 1)).filter (fun k => k ≠ who)).map
    (fun k => topicStem unique_id ++ '-' :: intRepr k)

/-- The `TalkerToBroker` object state after `__init__` has computed its
fields (network side effects are modelled by `Talker.try_to_connect`,
`Talker.on_connect`, `Talker.on_subscribe` and `wait_poll`). -/
structure Talker where
  sender : SenderData
  receiver : Option Receiver
  unique_id : Str
  broker : Broker
  publisher_topic : Str
  subscriber_topics : List Str
  has_two_way_connection_with_broker : Bool

/-- Field computation of `TalkerToBroker.__init__` (lines 231-250):
stores sender/receiver/unique_id, defaults the broker, derives the
publisher topic and subscriber topics, and clears the ready flag. -/
def mkTalker (sender : SenderData) (receiver : Option Receiver)
    (unique_id : Str) (broker : Option Broker) : Talker :=
  { sender := sender
    receiver := receiver
    unique_id := unique_id
    broker := broker.getD defaultBroker
    publisher_topic := publishTopic unique_id sender.who_am_i
    subscriber_topics := subscribeTopics unique_id sender.who_am_i sender.number_of_computers
    has_two_way_connection_with_broker := false }

/-- An inbound MQTT message event as `_on_message` sees it:
the topic and the decoded payload. -/
structure MqttMsg where
  topic : Str
  payload : Str
deriving DecidableEq, Repr

/-- The sender-id decode `int(msg.topic.split("-")[-1])` of `_on_message`
(the spec's `parseSenderId`); `none` where `int` raises `ValueError`. -/
def parseSenderId (topic : Str) : Option Int :=
  pyInt (lastSplit '-' topic)

/-! ### Behavior, from simpleMQTT.py -/

/-- Formatted prefix printed at verbosity 2 when receiving. -/
def fmtReceivedFrom (n : Int) : Str :=
  "Received from ".data ++ intRepr n ++ ": ".data

/-- Formatted prefix printed at verbosity 2 when sending. -/
def fmtSentBy (w : Int) : Str :=
  "Sent by ".data ++ intRepr w ++ ": ".data

/-- Formatted prefix printed at verbosity 3 when receiving. -/
def fmtReceivedByFrom (w n : Int) : Str :=
  "Received by ".data ++ intRepr w ++ " from ".data ++ intRepr n ++ ": ".data

/-- Formatted prefix printed at verbosity 3 when sending. -/
def fmtSentByToAll (w : Int) : Str :=
  "Sent by ".data ++ intRepr w ++ " to all: ".data

/-- Header line printed at verbosity 4 and above when receiving. -/
def fmtReceivedByFromHdr (w n : Int) : Str :=
  "Received by ".data ++ intRepr w ++ " from ".data ++ intRepr n ++ ":".data

/-- Header line printed at verbosity 4 and above when sending. -/
def fmtSentByToAllHdr (w : Int) : Str :=
  "Sent by ".data ++ intRepr w ++ " to all:".data

/-- The `TalkerToBroker.print_message` method (lines 341-378).  The
`sender_or_receiver` argument is represented by its `verbosity` field, the
only field the method reads.  `sender_id = none` models Python `None`;
`sender_number = sender_id or who_am_i` and `if sender_id:` follow Python
truthiness, under which `0` behaves like `None`. -/
def Talker.print_message (t : Talker) (message : PyVal) (verbosity : Int)
    (sender_id : Option Int) : List Ev :=
  let who := t.sender.who_am_i
  let truthy : Bool :=
    match sender_id with
    | some n => decide (n ≠ 0)
    | none => false
  let sender_number : Int :=
    match sender_id with
    | some n => if n = 0 then who else n
    | none => who
  if verbosity = 0 then []
  else
    (if verbosity = 2 then
      [Ev.line Color.black (if truthy then fmtReceivedFrom sender_number else fmtSentBy who)]
    else if verbosity = 3 then
      [Ev.line Color.black
        (if truthy then fmtReceivedByFrom who sender_number else fmtSentByToAll who)]
    else if 4 ≤ verbosity then
      [Ev.line Color.black
        (if truthy then fmtReceivedByFromHdr who sender_number else fmtSentByToAllHdr who),
       Ev.line Color.black "  -- ".data]
    else [])
    ++ [Ev.line Color.blue (pyStrOf message)]

/-- The `Sender.print_message` method: delegates to the talker's
`print_message` with `sender_id` left at `None`. -/
def SenderData.print_message (s : SenderData) (t : Talker) (message : PyVal) : List Ev :=
  t.print_message message s.verbosity none

/-- The `Receiver.print_message` method: delegates to the talker's
`print_message`, passing the sender id. -/
def Receiver.print_message (r : Receiver) (t : Talker) (message : Str)
    (sender_id : Int) : List Ev :=
  t.print_message (PyVal.str message) r.verbosity (some sender_id)

/-- The `TalkerToBroker.send_message` method (lines 260-268): warn in red
when the message is not a string, then publish it regardless. -/
def Talker.send_message (t : Talker) (message : PyVal) : List Ev :=
  (if message.isStr then []
   else
    [Ev.line Color.red "You tried to send a message that is NOT a string.".data,
     Ev.line Color.red "All messages MUST be strings.".data])
  ++ [Ev.publish t.publisher_topic message]

/-- The `Sender` class: its plain data fields plus the
`_talker_to_broker` reference, `none` until `activate` sets it. -/
structure Sender where
  data : SenderData
  talker : Option Talker

/-- The `Sender.send_message` method (lines 160-177): when activated,
print then delegate to the talker; otherwise print the not-activated
diagnostic and drop the message.  The returned `Sender` is the object's
state after the call (the method assigns no fields). -/
def Sender.send_message (s : Sender) (message : PyVal) :
    List Ev × Option PyError × Sender :=
  match s.talker with
  | some t => (s.data.print_message t message ++ t.send_message message, none, s)
  | none =>
    ([Ev.line Color.black [],
      Ev.line Color.red "It appears that this Sender has NOT been activated.".data,
      Ev.line Color.red "No message will be sent.".data], none, s)

/-- The call `self.controller.act_on_message_received(message, sender_id)`:
attribute lookup raises `AttributeError` when missing, calling a
non-callable raises `TypeError`, and otherwise the method runs (recorded
as a `handlerRun` event) and may itself raise. -/
def Controller.call (c : Controller) (message : Str) (sender_id : Int) :
    List Ev × Option PyError :=
  match c.act_on_message_received with
  | none => ([], some PyError.attributeError)
  | some meth =>
    if meth.is_callable then ([Ev.handlerRun message sender_id], meth.run message sender_id)
    else ([], some PyError.typeError)

/-- The `Receiver.message_received` method (lines 74-91): print the
message, then call the controller's `act_on_message_received`. -/
def Receiver.message_received (r : Receiver) (t : Talker) (message : Str)
    (sender_id : Int) : List Ev × Option PyError :=
  let pevs := r.print_message t message sender_id
  match r.controller.call message sender_id with
  | (cevs, err) => (pevs ++ cevs, err)

/-- The `TalkerToBroker._on_message` callback (lines 323-339): decode the
payload and the sender id (the `int` call sits OUTSIDE the try block, so a
parse failure propagates), then dispatch to the receiver inside
`try/except Exception`, printing a traceback on failure.  The returned
`Talker` is the state after the call (the callback assigns no fields). -/
def Talker.on_message (t : Talker) (msg : MqttMsg) :
    Talker × List Ev × Option PyError :=
  match parseSenderId msg.topic with
  | none => (t, [], some PyError.valueError)
  | some sender_id =>
    match t.receiver with
    | none => (t, [Ev.traceback], none)
    | some r =>
      match r.message_received t msg.payload sender_id with
      | (evs, some _) => (t, evs ++ [Ev.traceback], none)
      | (evs, none) => (t, evs, none)

/-- The `TalkerToBroker._on_connect` callback (lines 291-309): on
`rc == 0`, print progress and issue one subscribe request carrying every
subscriber topic at qos 0; otherwise print errors and `exit()`
(modelled as `systemExit`).  It never touches the ready flag. -/
def Talker.on_connect (t : Talker) (rc : Int) :
    Talker × List Ev × Option PyError :=
  if rc = 0 then
    (t,
     [Ev.line Color.blue "OK, connected!".data,
      Ev.line Color.blue ("I am now publishing to topic:".data ++ ' ' :: t.publisher_topic),
      Ev.subscribeReq (t.subscriber_topics.map (fun topic => (topic, 0)))],
     none)
  else
    (t,
     [Ev.line Color.red ("Error connecting! Return code was:".data ++ ' ' :: intRepr rc),
      Ev.line Color.red "Exiting the program!".data],
     some PyError.systemExit)

/-- The `TalkerToBroker._on_subscribe` callback (lines 312-320): print
which topics are now subscribed, then set the ready flag. -/
def Talker.on_subscribe (t : Talker) : Talker × List Ev :=
  let evs :=
    if t.subscriber_topics.length = 1 then
      [Ev.line Color.blue
        ("I am now subscribed to topic:".data ++ ' ' :: t.subscriber_topics.getD 0 [])]
    else
      [Ev.line Color.blue
        ("I am now subscribed to topics:".data ++ ' ' :: pyReprStrList t.subscriber_topics)]
  ({ t with has_two_way_connection_with_broker := true }, evs)

/-- The `_wait_for_two_way_connection_with_broker` loop (lines 283-288):
`flag i` is the value of `has_two_way_connection_with_broker` read at the
i-th poll (the field is written by the background thread), `fuel` bounds
how many polls we observe, and `some j` means the loop broke out at poll
j.  The loop itself has no timeout: `none` for every fuel models that the
call never returns. -/
def wait_poll (flag : Nat → Bool) : Nat → Nat → Option Nat
  | 0, _ => none
  | fuel + 1, i => if flag i then some i else wait_poll flag fuel (i + 1)

/-- The eight diagnostic lines printed by `Receiver.verify_controller`
when the controller is invalid. -/
def verifyDiag : List Ev :=
  [Ev.line Color.red "You constructed a Receiver using code like this:".data,
   Ev.line Color.blue "   receiver = Receiver(BLAH)".data,
   Ev.line Color.red "This simpleMQTT module requires that when you do so,".data,
   Ev.line Color.red "the BLAH argument MUST be an instance of a class".data,
   Ev.line Color.red "that MUST have a method EXACTLY like this:".data,
   Ev.line Color.blue "  def act_on_message_received(message, sender_id):".data,
   Ev.line Color.red "Your BLAH object does NOT meet that requirement.".data,
   Ev.line Color.red "Check that you spelled the method correctly, etc.".data]

/-- The `Receiver.verify_controller` method (lines 113-130): look up
`act_on_message_received` (AttributeError when missing), assert it is
callable and that its signature has exactly 2 parameters (AssertionError
otherwise); on either failure print the diagnostic and re-raise. -/
def Receiver.verify_controller (r : Receiver) : List Ev × Option PyError :=
  match r.controller.act_on_message_received with
  | none => (verifyDiag, some PyError.attributeError)
  | some meth =>
    if meth.is_callable then
      if meth.param_count = 2 then ([], none)
      else (verifyDiag, some PyError.assertionError)
    else (verifyDiag, some PyError.assertionError)

/-- The `Receiver.__init__` constructor (lines 52-72): store the
controller and verbosity, then run `verify_controller`; construction
fails (the exception propagates) exactly when validation fails.  No
connection-related effect is produced here. -/
def Receiver.init (controller : Controller) (verbosity : Int) :
    List Ev × Except PyError Receiver :=
  let r : Receiver := ⟨controller, verbosity⟩
  match r.verify_controller with
  | (evs, some e) => (evs, Except.error e)
  | (evs, none) => (evs, Except.ok r)

/-- The `TalkerToBroker._try_to_connect` method (lines 270-281): print
progress and initiate the connection (the `connectAttempt` event). -/
def Talker.try_to_connect (t : Talker) : List Ev :=
  [Ev.line Color.blue "I am trying to connect to the following MQTT broker:".data,
   Ev.line Color.blue ("  --".data ++ ' ' :: brokerRepr t.broker ++ ' ' :: "...".data),
   Ev.connectAttempt]

/-- Outcome of the `activate` function: the Sender's state after the
call, whether the Receiver's `_talker_to_broker` field got assigned, and
the exception (if any) that propagates out of the call. -/
structure ActivateResult where
  sender : Sender
  receiver_talker_set : Bool
  error : Option PyError

/-- The `activate` function (lines 23-43): construct the talker, assign
`sender._talker_to_broker`, then assign `receiver._talker_to_broker` —
an assignment that raises `AttributeError` when `receiver` is `None`
(Python permits no attribute assignment on `None`).  The talker's
connection handshake is modelled separately and abstracted here. -/
def activate (unique_id : Str) (sender : Sender) (receiver : Option Receiver)
    (broker : Option Broker) : ActivateResult :=
  let t := mkTalker sender.data receiver unique_id broker
  let s : Sender := { sender with talker := some t }
  match receiver with
  | some _ => ⟨s, true, none⟩
  | none => ⟨s, false, some PyError.attributeError⟩

/-- The condition checked by `Receiver.verify_controller`: the controller
has an `act_on_message_received` attribute that is callable and whose
signature has exactly two parameters. -/
def conformingController (c : Controller) : Bool :=
  match c.act_on_message_received with
  | none => false
  | some meth => meth.is_callable && meth.param_count == 2

/-- A controller with no `act_on_message_received` attribute. -/
def badController : Controller := ⟨none⟩

/-- A conforming controller whose delivery method raises ValueError on
the payload "boom" and succeeds on anything else. -/
def boomController : Controller :=
  ⟨some ⟨true, 2, fun m _ =>
    if m = "boom".data then some PyError.valueError else none⟩⟩

/-- A receiver wrapping `boomController` at the default verbosity 3. -/
def boomReceiver : Receiver := ⟨boomController, 3⟩

/-- A talker for two computers with own id 1 in session "sess", wired to
`boomReceiver`. -/
def demoTalker : Talker := mkTalker ⟨1, 2, 3⟩ (some boomReceiver) "sess".data none

/-! ### Lemmas: decimal representation round-trips through Python int -/

theorem natReprAux_congr (n : Nat) : ∀ f1 f2, n < f1 → n < f2 →
    natReprAux f1 n = natReprAux f2 n := by
  induction n using Nat.strong_induction_on with
  | _ n ih =>
    intro f1 f2 h1 h2
    cases f1 with
    | zero => omega
    | succ g1 =>
      cases f2 with
      | zero => omega
      | succ g2 =>
        simp only [natReprAux]
        by_cases hn : n < 10
        · simp [hn]
        · have hdiv : n / 10 < n := Nat.div_lt_self (by omega) (by omega)
          simp only [if_neg hn]
          rw [ih (n / 10) hdiv g1 g2 (by omega) (by omega)]

theorem natRepr_eq (n : Nat) :
    natRepr n = if n < 10 then [digitCh n] else natRepr (n / 10) ++ [digitCh (n % 10)] := by
  by_cases hn : n < 10
  · rw [if_pos hn]
    unfold natRepr
    simp only [natReprAux]
    rw [if_pos hn]
  · have h1 : natRepr n = natReprAux n (n / 10) ++ [digitCh (n % 10)] := by
      unfold natRepr
      simp only [natReprAux]
      rw [if_neg hn]
    have h2 : natReprAux n (n / 10) = natRepr (n / 10) := by
      unfold natRepr
      exact natReprAux_congr (n / 10) n (n / 10 + 1)
        (by omega) (by omega)
    rw [if_neg hn, h1, h2]

theorem digitCh_isDigit : ∀ d, d < 10 → (digitCh d).isDigit = true := by decide

theorem digitCh_toNat : ∀ d, d < 10 → (digitCh d).toNat = 48 + d := by decide

theorem natRepr_all_digit (n : Nat) : ∀ c ∈ natRepr n, c.isDigit = true := by
  induction n using Nat.strong_induction_on with
  | _ n ih =>
    rw [natRepr_eq n]
    by_cases hn : n < 10
    · simp only [if_pos hn, List.mem_singleton]
      rintro c rfl
      exact digitCh_isDigit n hn
    · have hdiv : n / 10 < n := Nat.div_lt_self (by omega) (by omega)
      simp only [if_neg hn]
      intro c hc
      rcases List.mem_append.mp hc with h | h
      · exact ih (n / 10) hdiv c h
      · rw [List.mem_singleton] at h
        subst h
        exact digitCh_isDigit _ (Nat.mod_lt _ (by omega))

theorem natRepr_ne_nil (n : Nat) : natRepr n ≠ [] := by
  rw [natRepr_eq n]
  by_cases hn : n < 10 <;> simp [hn]

theorem digitsToNat_append_digit (l : Str) (c : Char) :
    digitsToNat (l ++ [c]) = 10 * digitsToNat l + (c.toNat - 48) := by
  simp [digitsToNat, List.foldl_append]

theorem digitsToNat_natRepr (n : Nat) : digitsToNat (natRepr n) = n := by
  induction n using Nat.strong_induction_on with
  | _ n ih =>
    rw [natRepr_eq n]
    by_cases hn : n < 10
    · simp only [if_pos hn, digitsToNat, List.foldl]
      rw [digitCh_toNat n hn]
      omega
    · have hdiv : n / 10 < n := Nat.div_lt_self (by omega) (by omega)
      rw [if_neg hn, digitsToNat_append_digit, ih (n / 10) hdiv,
        digitCh_toNat (n % 10) (Nat.mod_lt _ (by omega))]
      omega

theorem usTail_of_all_digit (l : Str) (h : ∀ c ∈ l, c.isDigit = true) : usTail l = true := by
  induction l with
  | nil => rfl
  | cons c rest ih =>
    have hc : c.isDigit = true := h c (List.mem_cons_self c rest)
    have hcne : ¬ c = '_' := by rintro rfl; exact absurd hc (by decide)
    unfold usTail
    rw [if_neg hcne, hc, ih (fun x hx => h x (List.mem_cons_of_mem c hx))]
    rfl

theorem pyDigitsValid_of_all_digit (l : Str) (hne : l ≠ [])
    (h : ∀ c ∈ l, c.isDigit = true) : pyDigitsValid l = true := by
  cases l with
  | nil => exact absurd rfl hne
  | cons c rest =>
    simp only [pyDigitsValid, h c (List.mem_cons_self c rest), Bool.true_and]
    exact usTail_of_all_digit rest (fun x hx => h x (List.mem_cons_of_mem c hx))

theorem filter_underscore_of_all_digit (l : Str) (h : ∀ c ∈ l, c.isDigit = true) :
    l.filter (fun c => c ≠ '_') = l := by
  rw [List.filter_eq_self]
  intro a ha
  have hd : a.isDigit = true := h a ha
  simp only [decide_eq_true_eq]
  rintro rfl
  exact absurd hd (by decide)

theorem pyIntCore_of_all_digit (l : Str) (hne : l ≠ [])
    (h : ∀ c ∈ l, c.isDigit = true) : pyIntCore l = some (digitsToNat l) := by
  unfold pyIntCore
  rw [pyDigitsValid_of_all_digit l hne h, filter_underscore_of_all_digit l h]
  rfl

theorem pyIntCore_natRepr (n : Nat) : pyIntCore (natRepr n) = some n := by
  rw [pyIntCore_of_all_digit _ (natRepr_ne_nil n) (natRepr_all_digit n), digitsToNat_natRepr]

theorem dropWhile_eq_self_of (p : Char → Bool) (l : Str) (h : ∀ c ∈ l, p c = false) :
    l.dropWhile p = l := by
  cases l with
  | nil => rfl
  | cons c rest =>
    rw [List.dropWhile_cons]
    simp [h c (List.mem_cons_self c rest)]

theorem pyStrip_eq_self (l : Str) (h : ∀ c ∈ l, isPySpace c = false) : pyStrip l = l := by
  unfold pyStrip
  rw [dropWhile_eq_self_of _ l h]
  rw [dropWhile_eq_self_of _ l.reverse (fun c hc => h c (List.mem_reverse.mp hc))]
  exact List.reverse_reverse l

theorem mem_pyStrip (l : Str) (c : Char) (h : c ∈ pyStrip l) : c ∈ l := by
  unfold pyStrip at h
  rw [List.mem_reverse] at h
  have h2 := List.Sublist.mem h (List.dropWhile_sublist _)
  rw [List.mem_reverse] at h2
  exact List.Sublist.mem h2 (List.dropWhile_sublist _)

theorem isDigit_ne_plus {c : Char} (h : c.isDigit = true) : ¬ c = '+' := by
  rintro rfl; exact absurd h (by decide)

theorem isDigit_ne_minus {c : Char} (h : c.isDigit = true) : ¬ c = '-' := by
  rintro rfl; exact absurd h (by decide)

theorem isDigit_not_space {c : Char} (h : c.isDigit = true) : isPySpace c = false := by
  cases hc : isPySpace c with
  | false => rfl
  | true =>
    simp only [isPySpace, Bool.or_eq_true, decide_eq_true_eq] at hc
    rcases hc with (((((h1 | h1) | h1) | h1) | h1) | h1) <;>
      (subst h1; exact absurd h (by decide))

theorem pyInt_of_all_digit (l : Str) (hne : l ≠ [])
    (hd : ∀ c ∈ l, c.isDigit = true) : pyInt l = some (Int.ofNat (digitsToNat l)) := by
  obtain ⟨c, rest, rfl⟩ : ∃ c rest, l = c :: rest := by
    cases l with
    | nil => exact absurd rfl hne
    | cons c rest => exact ⟨c, rest, rfl⟩
  have hc : c.isDigit = true := hd c (List.mem_cons_self c rest)
  have hstrip : pyStrip (c :: rest) = c :: rest :=
    pyStrip_eq_self _ (fun x hx => isDigit_not_space (hd x hx))
  have hred : pyInt (c :: rest) =
      (if c = '+' then (pyIntCore rest).map Int.ofNat
       else if c = '-' then (pyIntCore rest).map (fun n => -(Int.ofNat n))
       else (pyIntCore (c :: rest)).map Int.ofNat) := by
    unfold pyInt
    rw [hstrip]
  rw [hred, if_neg (isDigit_ne_plus hc), if_neg (isDigit_ne_minus hc),
    pyIntCore_of_all_digit _ (by simp) hd]
  rfl

theorem pyInt_natRepr (n : Nat) : pyInt (natRepr n) = some (n : Int) := by
  rw [pyInt_of_all_digit _ (natRepr_ne_nil n) (natRepr_all_digit n), digitsToNat_natRepr]
  rfl

theorem pyInt_intRepr (n : Int) : pyInt (intRepr n) = some n := by
  by_cases hn : n < 0
  · unfold intRepr
    rw [if_pos hn]
    have hstrip : pyStrip ('-' :: natRepr n.natAbs) = '-' :: natRepr n.natAbs := by
      apply pyStrip_eq_self
      intro c hc
      rcases List.mem_cons.mp hc with rfl | hc
      · decide
      · exact isDigit_not_space (natRepr_all_digit _ c hc)
    have hred : pyInt ('-' :: natRepr n.natAbs) =
        (if ('-' : Char) = '+' then (pyIntCore (natRepr n.natAbs)).map Int.ofNat
         else if ('-' : Char) = '-' then
           (pyIntCore (natRepr n.natAbs)).map (fun m => -(Int.ofNat m))
         else (pyIntCore ('-' :: natRepr n.natAbs)).map Int.ofNat) := by
      unfold pyInt
      rw [hstrip]
    rw [hred, if_neg (by decide), if_pos rfl, pyIntCore_natRepr]
    have habs : -(Int.ofNat n.natAbs) = n := by
      simp only [Int.ofNat_eq_coe]
      omega
    rw [Option.map_some', habs]
  · unfold intRepr
    rw [if_neg hn, pyInt_natRepr]
    have : ((n.toNat : Nat) : Int) = n := by omega
    rw [this]

theorem intRepr_inj {a b : Int} (h : intRepr a = intRepr b) : a = b := by
  have ha := pyInt_intRepr a
  rw [h, pyInt_intRepr b] at ha
  exact (Option.some.inj ha).symm

/-! ### Lemmas: splitting topics at the minus sign -/

theorem splitSep_ne_nil (sep : Char) (l : Str) : splitSep sep l ≠ [] := by
  cases l with
  | nil => simp [splitSep]
  | cons c rest =>
    simp only [splitSep]
    split
    · simp
    · cases hs : splitSep sep rest <;> simp

theorem splitSep_cons_self (sep : Char) (rest : Str) :
    splitSep sep (sep :: rest) = [] :: splitSep sep rest := by
  simp [splitSep]

theorem splitSep_cons_ne (sep c : Char) (rest : Str) (hc : ¬ c = sep) :
    splitSep sep (c :: rest) =
      (match splitSep sep rest with
       | [] => [[c]]
       | s :: ss => (c :: s) :: ss) := by
  simp [splitSep, hc]

theorem getLastD_irrel {α : Type} (l : List α) (hne : l ≠ []) (d1 d2 : α) :
    l.getLastD d1 = l.getLastD d2 := by
  cases l with
  | nil => exact absurd rfl hne
  | cons c rest => rw [List.getLastD_cons, List.getLastD_cons]

theorem splitSep_length_ge_two (sep : Char) (l : Str) (h : sep ∈ l) :
    2 ≤ (splitSep sep l).length := by
  induction l with
  | nil => simp at h
  | cons c rest ih =>
    by_cases hc : c = sep
    · subst hc
      rw [splitSep_cons_self, List.length_cons]
      have := List.length_pos.mpr (splitSep_ne_nil c rest)
      omega
    · have hr : sep ∈ rest := by
        rcases List.mem_cons.mp h with h1 | h1
        · exact absurd h1.symm hc
        · exact h1
      have h2 := ih hr
      rw [splitSep_cons_ne sep c rest hc]
      cases hs : splitSep sep rest with
      | nil => exact absurd hs (splitSep_ne_nil sep rest)
      | cons s ss =>
        rw [hs] at h2
        show 2 ≤ ((c :: s) :: ss).length
        simp only [List.length_cons] at h2 ⊢
        omega

theorem splitSep_of_not_mem (sep : Char) (ys : Str) (h : sep ∉ ys) :
    splitSep sep ys = [ys] := by
  induction ys with
  | nil => rfl
  | cons c rest ih =>
    have hc : ¬ c = sep := fun hh => h (hh ▸ List.mem_cons_self c rest)
    have hr : sep ∉ rest := fun hh => h (List.mem_cons_of_mem c hh)
    rw [splitSep_cons_ne sep c rest hc, ih hr]

theorem lastSplit_cons_self (sep : Char) (rest : Str) :
    lastSplit sep (sep :: rest) = lastSplit sep rest := by
  rw [lastSplit, splitSep_cons_self, List.getLastD_cons]
  rfl

theorem lastSplit_cons_ne (sep c : Char) (rest : Str) (hc : ¬ c = sep)
    (hmem : sep ∈ rest) : lastSplit sep (c :: rest) = lastSplit sep rest := by
  obtain ⟨s, ss, hs⟩ : ∃ s ss, splitSep sep rest = s :: ss := by
    cases h : splitSep sep rest with
    | nil => exact absurd h (splitSep_ne_nil sep rest)
    | cons s ss => exact ⟨s, ss, rfl⟩
  have hlen := splitSep_length_ge_two sep rest hmem
  rw [hs, List.length_cons] at hlen
  have hss : ss ≠ [] := by
    intro hh
    rw [hh] at hlen
    simp at hlen
  rw [lastSplit, splitSep_cons_ne sep c rest hc, hs]
  show ((c :: s) :: ss).getLastD [] = lastSplit sep rest
  rw [List.getLastD_cons, lastSplit, hs, List.getLastD_cons]
  exact getLastD_irrel ss hss (c :: s) s

theorem lastSplit_append_cons (sep : Char) (xs ys : Str) :
    lastSplit sep (xs ++ sep :: ys) = lastSplit sep ys := by
  induction xs with
  | nil => rw [List.nil_append, lastSplit_cons_self]
  | cons c xs ih =>
    by_cases hc : c = sep
    · subst hc
      rw [List.cons_append, lastSplit_cons_self]
      exact ih
    · rw [List.cons_append, lastSplit_cons_ne sep c _ hc
        (List.mem_append_right xs (List.mem_cons_self sep ys))]
      exact ih

theorem lastSplit_of_not_mem (sep : Char) (ys : Str) (h : sep ∉ ys) :
    lastSplit sep ys = ys := by
  rw [lastSplit, splitSep_of_not_mem sep ys h, List.getLastD_cons]
  rfl

theorem not_mem_lastSplit (sep : Char) (l : Str) : sep ∉ lastSplit sep l := by
  induction l with
  | nil => simp [lastSplit, splitSep, List.getLastD]
  | cons c rest ih =>
    by_cases hc : c = sep
    · subst hc
      rw [lastSplit_cons_self]
      exact ih
    · by_cases hmem : sep ∈ rest
      · rw [lastSplit_cons_ne sep c rest hc hmem]
        exact ih
      · rw [lastSplit, splitSep_cons_ne sep c rest hc,
          splitSep_of_not_mem sep rest hmem]
        show sep ∉ (c :: rest)
        intro hin
        rcases List.mem_cons.mp hin with h2 | h2
        · exact hc h2.symm
        · exact hmem h2

/-! ### Lemmas: the parsed sender id is never negative -/

theorem pyInt_nonneg_of_no_minus (l : Str) (hm : '-' ∉ l) (z : Int)
    (h : pyInt l = some z) : 0 ≤ z := by
  cases hs : pyStrip l with
  | nil =>
    have hred : pyInt l = none := by
      unfold pyInt
      rw [hs]
    rw [hred] at h
    exact absurd h (by simp)
  | cons c rest =>
    have hred : pyInt l =
        (if c = '+' then (pyIntCore rest).map Int.ofNat
         else if c = '-' then (pyIntCore rest).map (fun n => -(Int.ofNat n))
         else (pyIntCore (c :: rest)).map Int.ofNat) := by
      unfold pyInt
      rw [hs]
    rw [hred] at h
    by_cases hp : c = '+'
    · rw [if_pos hp] at h
      cases hcore : pyIntCore rest with
      | none => rw [hcore] at h; exact absurd h (by simp)
      | some m =>
        rw [hcore, Option.map_some'] at h
        have hmz : Int.ofNat m = z := Option.some.inj h
        simp only [Int.ofNat_eq_coe] at hmz
        omega
    · have hneg : ¬ c = '-' := by
        intro hh
        subst hh
        exact hm (mem_pyStrip l '-' (hs ▸ List.mem_cons_self '-' rest))
      rw [if_neg hp, if_neg hneg] at h
      cases hcore : pyIntCore (c :: rest) with
      | none => rw [hcore] at h; exact absurd h (by simp)
      | some m =>
        rw [hcore, Option.map_some'] at h
        have hmz : Int.ofNat m = z := Option.some.inj h
        simp only [Int.ofNat_eq_coe] at hmz
        omega

/-! ### Lemmas: topic derivation -/

theorem minus_not_mem_intRepr {i : Int} (hi : 0 ≤ i) : '-' ∉ intRepr i := by
  rw [intRepr, if_neg (by omega)]
  intro hmem
  exact absurd (natRepr_all_digit _ '-' hmem) (by decide)

theorem parseSenderId_publishTopic (S : Str) (i : Int) (hi : 0 ≤ i) :
    parseSenderId (publishTopic S i) = some i := by
  rw [parseSenderId, publishTopic]
  rw [lastSplit_append_cons '-' (topicStem S) (intRepr i)]
  rw [lastSplit_of_not_mem '-' (intRepr i) (minus_not_mem_intRepr hi)]
  exact pyInt_intRepr i

theorem mem_pyRange (a b k : Int) : k ∈ pyRange a b ↔ a ≤ k ∧ k < b := by
  simp only [pyRange, List.mem_map, List.mem_range, Int.ofNat_eq_coe]
  constructor
  · rintro ⟨j, hj, rfl⟩
    omega
  · intro hk
    exact ⟨(k - a).toNat, by omega, by omega⟩

theorem pyRange_nodup (a b : Int) : (pyRange a b).Nodup := by
  apply List.Nodup.map
  · intro x y hxy
    simp only [Int.ofNat_eq_coe] at hxy
    omega
  · exact List.nodup_range _

theorem pyRange_length (a b : Int) : (pyRange a b).length = (b - a).toNat := by
  simp [pyRange]

theorem length_filter_ne_of_nodup {α : Type} [DecidableEq α] (l : List α) (a : α)
    (hnd : l.Nodup) (ha : a ∈ l) :
    (l.filter (fun x => x ≠ a)).length = l.length - 1 := by
  induction l with
  | nil => simp at ha
  | cons c rest ih =>
    rw [List.nodup_cons] at hnd
    by_cases hca : a = c
    · subst hca
      have hfilter : rest.filter (fun x => x ≠ a) = rest :=
        List.filter_eq_self.mpr (fun x hx => by
          simp only [ne_eq, decide_eq_true_eq]
          intro hxa
          subst hxa
          exact hnd.1 hx)
      rw [List.filter_cons, if_neg (by simp), hfilter]
      simp
    · have hmem : a ∈ rest := by
        rcases List.mem_cons.mp ha with h1 | h1
        · exact absurd h1 hca
        · exact h1
      rw [List.filter_cons, if_pos (by simp; exact fun h => hca h.symm)]
      rw [List.length_cons, ih hnd.2 hmem, List.length_cons]
      have : 1 ≤ rest.length := List.length_pos.mpr (List.ne_nil_of_mem hmem)
      omega

theorem subscribeTopics_length (uid : Str) (who N : Int)
    (h1 : 1 ≤ who) (h2 : who ≤ N) :
    (subscribeTopics uid who N).length = (N - 1).toNat := by
  rw [subscribeTopics, List.length_map]
  rw [length_filter_ne_of_nodup _ who (pyRange_nodup 1 (N + 1))
    ((mem_pyRange _ _ _).mpr ⟨h1, by omega⟩)]
  rw [pyRange_length]
  omega

theorem mem_subscribeTopics (uid : Str) (who N k : Int) (hk1 : 1 ≤ k)
    (hk2 : k ≤ N) (hkw : k ≠ who) :
    publishTopic uid k ∈ subscribeTopics uid who N := by
  rw [subscribeTopics]
  apply List.mem_map.mpr
  refine ⟨k, ?_, rfl⟩
  rw [List.mem_filter]
  exact ⟨(mem_pyRange _ _ _).mpr ⟨hk1, by omega⟩, by simp [hkw]⟩

theorem publishTopic_inj (uid : Str) {a b : Int}
    (h : publishTopic uid a = publishTopic uid b) : a = b := by
  rw [publishTopic, publishTopic] at h
  have h2 := List.append_cancel_left h
  have h3 : intRepr a = intRepr b := by injection h2
  exact intRepr_inj h3

theorem own_not_mem_subscribeTopics (uid : Str) (who N : Int) :
    publishTopic uid who ∉ subscribeTopics uid who N := by
  rw [subscribeTopics]
  intro hmem
  obtain ⟨k, hk, heq⟩ := List.mem_map.mp hmem
  rw [List.mem_filter] at hk
  have hkw : k ≠ who := by simpa using hk.2
  exact hkw (publishTopic_inj uid heq)

/-! ### The claims -/

/-- C1: for every session-id string S and every positive participant id i,
decoding the sender id from the derived publish topic returns i:
`parseSenderId (publishTopic S i) = some i`. -/
theorem claim_C1_parse_of_publishTopic (S : Str) (i : Int) (hi : 0 < i) :
    parseSenderId (publishTopic S i) = some i :=
  parseSenderId_publishTopic S i (by omega)

/-- Witness for C1 at S = "demo", i = 12. -/
theorem claim_C1_witness :
    (0 : Int) < 12 ∧ parseSenderId (publishTopic "demo".data 12) = some 12 :=
  ⟨by decide, claim_C1_parse_of_publishTopic "demo".data 12 (by decide)⟩

/-- C2: for session-id S, participant count N ≥ 2 and own id i in [1..N],
the subscriber-topic list built at TalkerToBroker construction has exactly
N−1 elements, contains the publish topic of every other participant, and
never contains the own publish topic. -/
theorem claim_C2_subscriber_topics (uid : Str) (s : SenderData)
    (r : Option Receiver) (b : Option Broker) (h1 : 1 ≤ s.who_am_i)
    (h2 : s.who_am_i ≤ s.number_of_computers)
    (_hN : 2 ≤ s.number_of_computers) :
    (mkTalker s r uid b).subscriber_topics.length = (s.number_of_computers - 1).toNat ∧
    (∀ k : Int, 1 ≤ k → k ≤ s.number_of_computers → k ≠ s.who_am_i →
      publishTopic uid k ∈ (mkTalker s r uid b).subscriber_topics) ∧
    publishTopic uid s.who_am_i ∉ (mkTalker s r uid b).subscriber_topics := by
  refine ⟨?_, ?_, ?_⟩
  · show (subscribeTopics uid s.who_am_i s.number_of_computers).length = _
    exact subscribeTopics_length uid _ _ h1 h2
  · intro k hk1 hk2 hkw
    show publishTopic uid k ∈ subscribeTopics uid s.who_am_i s.number_of_computers
    exact mem_subscribeTopics uid _ _ k hk1 hk2 hkw
  · show publishTopic uid s.who_am_i ∉ subscribeTopics uid s.who_am_i s.number_of_computers
    exact own_not_mem_subscribeTopics uid _ _

/-- Witness for C2 at uid = "w", who_am_i = 2, N = 4. -/
theorem claim_C2_witness :
    (mkTalker ⟨2, 4, 3⟩ none "w".data none).subscriber_topics.length = ((4 : Int) - 1).toNat ∧
    publishTopic "w".data 1 ∈ (mkTalker ⟨2, 4, 3⟩ none "w".data none).subscriber_topics ∧
    publishTopic "w".data 2 ∉ (mkTalker ⟨2, 4, 3⟩ none "w".data none).subscriber_topics := by
  have h := claim_C2_subscriber_topics "w".data ⟨2, 4, 3⟩ none none
    (by decide) (by decide) (by decide)
  exact ⟨h.1, h.2.1 1 (by decide) (by decide) (by decide), h.2.2⟩

/-- C3: evaluating `activate` at a concrete input with the receiver
omitted: the talker is constructed and the sender's reference is set
before the failure, but the call raises AttributeError when it assigns
`receiver._talker_to_broker` on None — it does not complete without
raising, contrary to the claim. -/
theorem claim_C3_activate_none_raises :
    (activate "demo".data ⟨⟨1, 2, 3⟩, none⟩ none none).error = some PyError.attributeError ∧
    (activate "demo".data ⟨⟨1, 2, 3⟩, none⟩ none none).sender.talker =
      some (mkTalker ⟨1, 2, 3⟩ none "demo".data none) :=
  ⟨rfl, rfl⟩

/-- C4: calling send_message on a Sender that has not been activated does
not raise, prints the "not activated" diagnostic exactly once, performs no
publish, and leaves the Sender's state unchanged. -/
theorem claim_C4_send_before_activate (s : Sender) (m : PyVal)
    (h : s.talker = none) :
    (s.send_message m).2.1 = none ∧
    ((s.send_message m).1.countP (fun e =>
      e = Ev.line Color.red "It appears that this Sender has NOT been activated.".data)) = 1 ∧
    (∀ topic payload, Ev.publish topic payload ∉ (s.send_message m).1) ∧
    (s.send_message m).2.2 = s := by
  obtain ⟨d, tk⟩ := s
  simp only at h
  subst h
  refine ⟨rfl, rfl, ?_, rfl⟩
  intro topic payload hmem
  simp [Sender.send_message] at hmem

/-- Witness for C4 at a freshly constructed Sender and message "hi". -/
theorem claim_C4_witness :
    ((Sender.mk ⟨1, 2, 3⟩ none).send_message (PyVal.str "hi".data)).2.1 = none ∧
    (((Sender.mk ⟨1, 2, 3⟩ none).send_message (PyVal.str "hi".data)).1.countP (fun e =>
      e = Ev.line Color.red "It appears that this Sender has NOT been activated.".data)) = 1 :=
  ⟨(claim_C4_send_before_activate (Sender.mk ⟨1, 2, 3⟩ none) (PyVal.str "hi".data) rfl).1,
   (claim_C4_send_before_activate (Sender.mk ⟨1, 2, 3⟩ none) (PyVal.str "hi".data) rfl).2.1⟩

/-- C5: constructing a Receiver whose controller lacks a callable
two-parameter `act_on_message_received` fails at construction with the
diagnostic printed and no connection attempt; a conforming controller
constructs successfully with no output. -/
theorem claim_C5_receiver_validation (c : Controller) (v : Int) :
    (conformingController c = false →
      (∃ e, (Receiver.init c v).2 = Except.error e) ∧
      (Receiver.init c v).1 = verifyDiag ∧
      Ev.connectAttempt ∉ (Receiver.init c v).1) ∧
    (conformingController c = true →
      Receiver.init c v = ([], Except.ok ⟨c, v⟩)) := by
  have hconn : Ev.connectAttempt ∉ verifyDiag := by decide
  obtain ⟨act⟩ := c
  cases act with
  | none =>
    refine ⟨fun _ => ⟨⟨PyError.attributeError, rfl⟩, rfl, hconn⟩, fun hh => ?_⟩
    exact absurd hh (by decide)
  | some meth =>
    obtain ⟨cal, pc, run⟩ := meth
    cases cal with
    | false =>
      refine ⟨fun _ => ⟨⟨PyError.assertionError, rfl⟩, rfl, hconn⟩, fun hh => ?_⟩
      simp [conformingController] at hh
    | true =>
      by_cases hpc : pc = 2
      · subst hpc
        refine ⟨fun hh => ?_, fun _ => rfl⟩
        simp [conformingController] at hh
      · have hred : Receiver.init (Controller.mk (some (ControllerMethod.mk true pc run))) v =
            (verifyDiag, Except.error PyError.assertionError) := by
          simp only [Receiver.init, Receiver.verify_controller]
          rw [if_neg hpc]
          simp
        refine ⟨fun _ => ⟨⟨PyError.assertionError, by rw [hred]⟩, by rw [hred],
          by rw [hred]; exact hconn⟩, fun hh => ?_⟩
        simp [conformingController, hpc] at hh

/-- Witness for C5: a controller with no delivery method fails while the
conforming `boomController` constructs. -/
theorem claim_C5_witness :
    conformingController badController = false ∧
    (∃ e, (Receiver.init badController 3).2 = Except.error e) ∧
    conformingController boomController = true ∧
    Receiver.init boomController 3 = ([], Except.ok ⟨boomController, 3⟩) :=
  ⟨rfl, ((claim_C5_receiver_validation badController 3).1 rfl).1, rfl,
   (claim_C5_receiver_validation boomController 3).2 rfl⟩

theorem handlerRun_mem_on_message (t : Talker) (r : Receiver)
    (meth : ControllerMethod) (msg : MqttMsg) (sid : Int)
    (hrecv : t.receiver = some r)
    (hact : r.controller.act_on_message_received = some meth)
    (hcal : meth.is_callable = true)
    (hp : parseSenderId msg.topic = some sid) :
    Ev.handlerRun msg.payload sid ∈ (t.on_message msg).2.1 := by
  have hcall : r.controller.call msg.payload sid =
      ([Ev.handlerRun msg.payload sid], meth.run msg.payload sid) := by
    simp only [Controller.call, hact, hcal, if_true]
  have hmr : r.message_received t msg.payload sid =
      (r.print_message t msg.payload sid ++ [Ev.handlerRun msg.payload sid],
       meth.run msg.payload sid) := by
    unfold Receiver.message_received
    rw [hcall]
  cases hr : meth.run msg.payload sid with
  | none =>
    simp only [Talker.on_message, hp, hrecv, hmr, hr]
    exact List.mem_append_right _ (List.mem_singleton_self _)
  | some e2 =>
    simp only [Talker.on_message, hp, hrecv, hmr, hr]
    exact List.mem_append_left _ (List.mem_append_right _ (List.mem_singleton_self _))

/-- C6: if the controller's delivery method raises on message M1, the
exception is caught at the `_on_message` boundary (traceback printed, the
callback returns without error), and a second message M2 is still
dispatched to the controller. -/
theorem claim_C6_handler_isolation (t : Talker) (r : Receiver)
    (meth : ControllerMethod) (m1 m2 : MqttMsg) (sid1 sid2 : Int) (e : PyError)
    (hrecv : t.receiver = some r)
    (hact : r.controller.act_on_message_received = some meth)
    (hcal : meth.is_callable = true)
    (hp1 : parseSenderId m1.topic = some sid1)
    (hrun : meth.run m1.payload sid1 = some e)
    (hp2 : parseSenderId m2.topic = some sid2) :
    (t.on_message m1).2.2 = none ∧
    Ev.traceback ∈ (t.on_message m1).2.1 ∧
    Ev.handlerRun m2.payload sid2 ∈ (t.on_message m2).2.1 := by
  have hcall : r.controller.call m1.payload sid1 =
      ([Ev.handlerRun m1.payload sid1], some e) := by
    simp only [Controller.call, hact, hcal, if_true, hrun]
  have hmr : r.message_received t m1.payload sid1 =
      (r.print_message t m1.payload sid1 ++ [Ev.handlerRun m1.payload sid1], some e) := by
    unfold Receiver.message_received
    rw [hcall]
  refine ⟨?_, ?_, handlerRun_mem_on_message t r meth m2 sid2 hrecv hact hcal hp2⟩
  · simp only [Talker.on_message, hp1, hrecv, hmr]
  · simp only [Talker.on_message, hp1, hrecv, hmr]
    exact List.mem_append_right _ (List.mem_singleton_self _)

/-- Witness for C6: `demoTalker` with two inbound messages on the topic
of computer 2, the first of which makes the handler raise. -/
theorem claim_C6_witness :
    (demoTalker.on_message ⟨"sess/computer-2".data, "boom".data⟩).2.2 = none ∧
    Ev.traceback ∈ (demoTalker.on_message ⟨"sess/computer-2".data, "boom".data⟩).2.1 ∧
    Ev.handlerRun "ok".data 2 ∈
      (demoTalker.on_message ⟨"sess/computer-2".data, "ok".data⟩).2.1 :=
  claim_C6_handler_isolation demoTalker boomReceiver
    ⟨true, 2, fun m _ => if m = "boom".data then some PyError.valueError else none⟩
    ⟨"sess/computer-2".data, "boom".data⟩ ⟨"sess/computer-2".data, "ok".data⟩
    2 2 PyError.valueError rfl rfl rfl (by decide) (by decide) (by decide)

theorem wait_poll_some_flag (flag : Nat → Bool) :
    ∀ fuel i j, wait_poll flag fuel i = some j → flag j = true := by
  intro fuel
  induction fuel with
  | zero =>
    intro i j h
    exact absurd h (by simp [wait_poll])
  | succ f ih =>
    intro i j h
    unfold wait_poll at h
    by_cases hf : flag i = true
    · rw [if_pos hf] at h
      rw [← Option.some.inj h]
      exact hf
    · rw [if_neg hf] at h
      exact ih (i + 1) j h

theorem wait_poll_none_of_never (flag : Nat → Bool)
    (hnever : ∀ k, flag k = false) : ∀ fuel i, wait_poll flag fuel i = none := by
  intro fuel
  induction fuel with
  | zero => intro i; rfl
  | succ f ih =>
    intro i
    unfold wait_poll
    rw [hnever i]
    simpa using ih (i + 1)

theorem wait_poll_isSome (flag : Nat → Bool) :
    ∀ fuel i j, i ≤ j → j < i + fuel → flag j = true →
      (wait_poll flag fuel i).isSome = true := by
  intro fuel
  induction fuel with
  | zero => intro i j h1 h2 _; omega
  | succ f ih =>
    intro i j h1 h2 hj
    unfold wait_poll
    by_cases hf : flag i = true
    · rw [if_pos hf]
      rfl
    · rw [if_neg hf]
      have hij : i ≠ j := fun hh => hf (hh ▸ hj)
      exact ih (i + 1) j (by omega) (by omega) hj

/-- C7: the activation wait loop exits exactly when the ready flag reads
true (and exits at the first true read); if the flag never becomes true no
amount of polling returns (the loop has no timeout).  The flag starts
false at construction, `_on_subscribe` is the callback that sets it, and
neither `_on_connect` nor `_on_message` changes the talker's state. -/
theorem claim_C7_wait_for_ready_flag (flag : Nat → Bool) (fuel i j n : Nat)
    (t : Talker) (s : SenderData) (r : Option Receiver) (uid : Str)
    (b : Option Broker) (rc : Int) (msg : MqttMsg) :
    (wait_poll flag fuel i = some j → flag j = true) ∧
    ((∀ k, flag k = false) → wait_poll flag fuel i = none) ∧
    (flag n = true → (wait_poll flag (n + 1) 0).isSome = true) ∧
    (mkTalker s r uid b).has_two_way_connection_with_broker = false ∧
    (t.on_subscribe).1.has_two_way_connection_with_broker = true ∧
    (t.on_connect rc).1 = t ∧
    (t.on_message msg).1 = t := by
  refine ⟨wait_poll_some_flag flag fuel i j,
    fun hnever => wait_poll_none_of_never flag hnever fuel i,
    fun hn => wait_poll_isSome flag (n + 1) 0 n (by omega) (by omega) hn,
    rfl, rfl, ?_, ?_⟩
  · unfold Talker.on_connect
    by_cases hrc : rc = 0
    · rw [if_pos hrc]
    · rw [if_neg hrc]
  · cases hp : parseSenderId msg.topic with
    | none => simp [Talker.on_message, hp]
    | some sid =>
      cases hr : t.receiver with
      | none => simp [Talker.on_message, hp, hr]
      | some rr =>
        cases hmr : rr.message_received t msg.payload sid with
        | mk evs err =>
          cases err with
          | none => simp [Talker.on_message, hp, hr, hmr]
          | some e => simp [Talker.on_message, hp, hr, hmr]

/-- Witness for C7: concrete polls of a flag that first reads true at
poll 2, a flag that never reads true, and the ready flag set by
`demoTalker`'s on-subscribe callback. -/
theorem claim_C7_witness :
    ((2 : Nat) == 2) = true ∧
    wait_poll (fun _ => false) 7 0 = none ∧
    (wait_poll (fun k => k == 2) 3 0).isSome = true ∧
    (demoTalker.on_subscribe).1.has_two_way_connection_with_broker = true := by
  refine ⟨?_, ?_, ?_, ?_⟩
  · exact (claim_C7_wait_for_ready_flag (fun k => k == 2) 3 0 2 0 demoTalker
      ⟨1, 2, 3⟩ none "s".data none 0 ⟨[], []⟩).1 (by decide)
  · exact (claim_C7_wait_for_ready_flag (fun _ => false) 7 0 0 0 demoTalker
      ⟨1, 2, 3⟩ none "s".data none 0 ⟨[], []⟩).2.1 (fun k => rfl)
  · exact (claim_C7_wait_for_ready_flag (fun k => k == 2) 3 0 2 2 demoTalker
      ⟨1, 2, 3⟩ none "s".data none 0 ⟨[], []⟩).2.2.1 (by decide)
  · exact (claim_C7_wait_for_ready_flag (fun k => k == 2) 3 0 2 2 demoTalker
      ⟨1, 2, 3⟩ none "s".data none 0 ⟨[], []⟩).2.2.2.2.1

/-- C8 counterexample: on the topic "a-0" the suffix after the last minus
sign is "0", which is not a valid positive integer, yet the decode does
not fail — it returns the non-positive sender id 0. -/
theorem claim_C8_counterexample :
    parseSenderId "a-0".data = some 0 ∧ ¬ (0 : Int) < 0 :=
  ⟨by decide, by decide⟩

/-- C8 (amended): the decode never produces a NEGATIVE sender id, because
the suffix after the last "-" cannot contain a minus sign; but it does
not enforce positivity — a suffix that is a valid non-negative integer
literal (such as "0") decodes successfully. -/
theorem claim_C8_parse_nonneg (topic : Str) (z : Int)
    (h : parseSenderId topic = some z) : 0 ≤ z :=
  pyInt_nonneg_of_no_minus _ (not_mem_lastSplit '-' topic) z h

/-- Witness for C8 at the topic "s/computer-7". -/
theorem claim_C8_witness :
    parseSenderId "s/computer-7".data = some 7 ∧ (0 : Int) ≤ 7 :=
  ⟨by decide, claim_C8_parse_nonneg "s/computer-7".data 7 (by decide)⟩

/-- C10: the connection manager's send_message on a non-string message
prints the two red "must be strings" diagnostic lines AND still publishes
the value to the publish topic. -/
theorem claim_C10_nonstring_send (t : Talker) (m : PyVal) (h : m.isStr = false) :
    t.send_message m =
      [Ev.line Color.red "You tried to send a message that is NOT a string.".data,
       Ev.line Color.red "All messages MUST be strings.".data,
       Ev.publish t.publisher_topic m] := by
  unfold Talker.send_message
  rw [h]
  rfl

/-- Witness for C10: sending the integer 42 through `demoTalker`. -/
theorem claim_C10_witness :
    demoTalker.send_message (PyVal.int 42) =
      [Ev.line Color.red "You tried to send a message that is NOT a string.".data,
       Ev.line Color.red "All messages MUST be strings.".data,
       Ev.publish demoTalker.publisher_topic (PyVal.int 42)] :=
  claim_C10_nonstring_send demoTalker (PyVal.int 42) rfl

/-- C9: diagnostic printing is gated identically for Sender and Receiver
by their verbosity (for a deliver carrying a positive sender id):
verbosity 0 prints nothing; any verbosity ≥ 1 includes the payload text;
level 1 prints the message only, level 2 adds the counterpart id, level 3
adds both ids, and levels 4 and above use the multi-line verbose form. -/
theorem claim_C9_verbosity_gating (t : Talker) (s : SenderData) (r : Receiver)
    (m : Str) (sid : Int) (hsid : 0 < sid) :
    (s.verbosity = 0 → s.print_message t (PyVal.str m) = []) ∧
    (r.verbosity = 0 → r.print_message t m sid = []) ∧
    (1 ≤ s.verbosity → Ev.line Color.blue m ∈ s.print_message t (PyVal.str m)) ∧
    (1 ≤ r.verbosity → Ev.line Color.blue m ∈ r.print_message t m sid) ∧
    (s.verbosity = 1 → s.print_message t (PyVal.str m) = [Ev.line Color.blue m]) ∧
    (r.verbosity = 1 → r.print_message t m sid = [Ev.line Color.blue m]) ∧
    (s.verbosity = 2 → s.print_message t (PyVal.str m) =
      [Ev.line Color.black (fmtSentBy t.sender.who_am_i), Ev.line Color.blue m]) ∧
    (r.verbosity = 2 → r.print_message t m sid =
      [Ev.line Color.black (fmtReceivedFrom sid), Ev.line Color.blue m]) ∧
    (s.verbosity = 3 → s.print_message t (PyVal.str m) =
      [Ev.line Color.black (fmtSentByToAll t.sender.who_am_i), Ev.line Color.blue m]) ∧
    (r.verbosity = 3 → r.print_message t m sid =
      [Ev.line Color.black (fmtReceivedByFrom t.sender.who_am_i sid), Ev.line Color.blue m]) ∧
    (4 ≤ s.verbosity → s.print_message t (PyVal.str m) =
      [Ev.line Color.black (fmtSentByToAllHdr t.sender.who_am_i),
       Ev.line Color.black "  -- ".data, Ev.line Color.blue m]) ∧
    (4 ≤ r.verbosity → r.print_message t m sid =
      [Ev.line Color.black (fmtReceivedByFromHdr t.sender.who_am_i sid),
       Ev.line Color.black "  -- ".data, Ev.line Color.blue m]) := by
  have hne : sid ≠ 0 := by omega
  refine ⟨?_, ?_, ?_, ?_, ?_, ?_, ?_, ?_, ?_, ?_, ?_, ?_⟩
  · intro h
    simp only [SenderData.print_message, Talker.print_message, h]
    simp
  · intro h
    simp only [Receiver.print_message, Talker.print_message, h]
    simp
  · intro h
    have h0 : s.verbosity ≠ 0 := by omega
    simp only [SenderData.print_message, Talker.print_message, if_neg h0, pyStrOf]
    exact List.mem_append_right _ (List.mem_singleton_self _)
  · intro h
    have h0 : r.verbosity ≠ 0 := by omega
    simp only [Receiver.print_message, Talker.print_message, if_neg h0, pyStrOf]
    exact List.mem_append_right _ (List.mem_singleton_self _)
  · intro h
    simp only [SenderData.print_message, Talker.print_message, h, pyStrOf]
    simp
  · intro h
    simp only [Receiver.print_message, Talker.print_message, h, pyStrOf]
    simp
  · intro h
    simp only [SenderData.print_message, Talker.print_message, h, pyStrOf]
    simp
  · intro h
    simp only [Receiver.print_message, Talker.print_message, h, pyStrOf, hne]
    simp [hne]
  · intro h
    simp only [SenderData.print_message, Talker.print_message, h, pyStrOf]
    simp
  · intro h
    simp only [Receiver.print_message, Talker.print_message, h, pyStrOf, hne]
    simp [hne]
  · intro h
    have h0 : s.verbosity ≠ 0 := by omega
    have h2 : s.verbosity ≠ 2 := by omega
    have h3 : s.verbosity ≠ 3 := by omega
    simp only [SenderData.print_message, Talker.print_message, if_neg h0, if_neg h2,
      if_neg h3, if_pos h, pyStrOf]
    simp
  · intro h
    have h0 : r.verbosity ≠ 0 := by omega
    have h2 : r.verbosity ≠ 2 := by omega
    have h3 : r.verbosity ≠ 3 := by omega
    simp only [Receiver.print_message, Talker.print_message, if_neg h0, if_neg h2,
      if_neg h3, if_pos h, pyStrOf, hne]
    simp [hne]

/-- Witness for C9: sender verbosities 0 and 2 and receiver verbosities 1
and 4 at `demoTalker`, payload "hey", sender id 2. -/
theorem claim_C9_witness :
    SenderData.print_message ⟨1, 2, 0⟩ demoTalker (PyVal.str "hey".data) = [] ∧
    SenderData.print_message ⟨1, 2, 2⟩ demoTalker (PyVal.str "hey".data) =
      [Ev.line Color.black (fmtSentBy 1), Ev.line Color.blue "hey".data] ∧
    Receiver.print_message ⟨boomController, 1⟩ demoTalker "hey".data 2 =
      [Ev.line Color.blue "hey".data] ∧
    Receiver.print_message ⟨boomController, 4⟩ demoTalker "hey".data 2 =
      [Ev.line Color.black (fmtReceivedByFromHdr 1 2),
       Ev.line Color.black "  -- ".data, Ev.line Color.blue "hey".data] :=
  ⟨(claim_C9_verbosity_gating demoTalker ⟨1, 2, 0⟩ ⟨boomController, 1⟩
      "hey".data 2 (by decide)).1 rfl,
   (claim_C9_verbosity_gating demoTalker ⟨1, 2, 2⟩ ⟨boomController, 1⟩
      "hey".data 2 (by decide)).2.2.2.2.2.2.1 rfl,
   (claim_C9_verbosity_gating demoTalker ⟨1, 2, 0⟩ ⟨boomController, 1⟩
      "hey".data 2 (by decide)).2.2.2.2.2.1 rfl,
   (claim_C9_verbosity_gating demoTalker ⟨1, 2, 0⟩ ⟨boomController, 4⟩
      "hey".data 2 (by decide)).2.2.2.2.2.2.2.2.2.2.2 (by decide)⟩
